import Mathlib

/-!
Verification of the gitops-operator dependency installer and derived-link
reconciler, shallowly embedded from the Go sources
`pkg/controller/gitopsservice/dependency/dependency.go`,
`pkg/controller/gitopsservice/dependency/operator.go` and
`pkg/controller/argocd/argocd_controller.go`.

Cluster-API interactions are modelled by oracles: a `GetRes` value stands
for the outcome of one `client.Get` call, and `Option String` values stand
for the outcomes of `client.Create` / `client.Delete` calls (`none` =
success, `some msg` = that error).  Every embedded function additionally
returns the list of write actions it performed, in order, so that frame
properties ("no write happened") are expressible.
-/

namespace GitopsOperator

/-- Outcome of a single `client.Get` call: the object (`ok`), a NotFound
error, or any other error carrying its message. -/
inductive GetRes (α : Type) where
  | ok (val : α)
  | notFound
  | err (msg : String)
deriving DecidableEq, Repr

/-- Kubernetes API error kinds distinguished by the installer
(`errors.IsNotFound` / `errors.IsAlreadyExists`); `other` is any further
error. -/
inductive K8sErr where
  | notFound
  | alreadyExists
  | other (msg : String)
deriving DecidableEq, Repr

/-- `errors.IsNotFound`. -/
def K8sErr.isNotFound : K8sErr → Bool
  | .notFound => true
  | _ => false

/-- `errors.IsAlreadyExists`. -/
def K8sErr.isAlreadyExists : K8sErr → Bool
  | .alreadyExists => true
  | _ => false

/-- Embedding of `Dependency.createResourceIfAbsent`
(dependency.go lines 116-135).  `getRes` is the outcome of the initial
`client.Get` (`none` = found), `createRes` the outcome of `client.Create`
when it is called.  Returns the error the Go function returns, paired with
whether `client.Create` was invoked.  Faithful to the Go control flow: on
a NotFound read it creates and returns the create error unmodified; the
`IsAlreadyExists` test is applied to the *read* error only. -/
def createResourceIfAbsent (getRes createRes : Option K8sErr) :
    Option K8sErr × Bool :=
  match getRes with
  | some e =>
    if e.isNotFound then
      match createRes with
      | some ce => (some ce, true)
      | none => (none, true)
    else if e.isAlreadyExists then (none, false)
    else (some e, false)
  | none => (none, false)

/-- Result of running `createResourceIfAbsent` against a cluster where the
resource is present or absent: the resulting presence, whether a write
(create) happened, and the returned error. -/
structure RunOutcome where
  present : Bool
  wrote : Bool
  error : Option K8sErr
deriving DecidableEq, Repr

/-- The `client.Get` outcome a cluster in state `present` produces for the
resource: found when present, NotFound when absent. -/
def getResOfPresent (present : Bool) : Option K8sErr :=
  if present then none else some K8sErr.notFound

/-- One run of `createResourceIfAbsent` against a race-free cluster in
state `present` (create succeeds when attempted): derived end state, write
flag and returned error. -/
def runCreateIfAbsent (present : Bool) : RunOutcome :=
  let r := createResourceIfAbsent (getResOfPresent present) none
  ⟨present || r.2, r.2, r.1⟩

/-- OLM `v1alpha1.CSVPhaseFailed`. -/
def phaseFailed : String := "Failed"

/-- OLM `v1alpha1.CSVPhaseSucceeded`. -/
def phaseSucceeded : String := "Succeeded"

/-- The status fields of a ClusterServiceVersion the installer reads:
`Status.Phase` and `Status.Reason`. -/
structure CSVStatus where
  phase : String
  reason : String
deriving DecidableEq, Repr

/-- The zero value `&v1alpha1.ClusterServiceVersion{}` has empty phase and
reason; it is what `isOperatorReady` classifies when `Get` returned
NotFound (the error is swallowed and the object left untouched). -/
def zeroCSV : CSVStatus := ⟨"", ""⟩

/-- The `switch csv.Status.Phase` of `isOperatorReady`: Failed fails with
the reported reason embedded, Succeeded is done, everything else keeps
polling. -/
def classifyPhase (csv : CSVStatus) : Bool × Option String :=
  if csv.phase = phaseFailed then
    (false, some ("Operator installation failed: " ++ csv.reason))
  else if csv.phase = phaseSucceeded then (true, none)
  else (false, none)

/-- Embedding of the condition function returned by `isOperatorReady`
(dependency.go lines 89-106) applied to one read outcome.  Result is the
Go pair `(done, err)`: a non-NotFound read error is propagated; a NotFound
read leaves the zero-valued CSV to be classified (hence: continue). -/
def isOperatorReady (read : GetRes CSVStatus) : Bool × Option String :=
  match read with
  | .err m => (false, some m)
  | .notFound => classifyPhase zeroCSV
  | .ok csv => classifyPhase csv

/-- `wait.ErrWaitTimeout`, returned by `wait.PollImmediate` when the
deadline passes without the condition becoming true. -/
def errWaitTimeout : String := "timed out waiting for the condition"

/-- Modelled from the spec: the poll loop of `wait.PollImmediate`
(client-go, not part of this repository), in discrete time.  `cond k` is
the condition's `(done, err)` at attempt `k`; `fuel` is the number of
attempts remaining.  An error stops with that error, `done` stops with
success, otherwise the next attempt runs one interval later; exhausted
fuel is the deadline timeout. -/
def pollLoop (cond : Nat → Bool × Option String) : Nat → Nat → Option String
  | 0, _ => some errWaitTimeout
  | Nat.succ fuel, k =>
    match cond k with
    | (_, some e) => some e
    | (true, none) => none
    | (false, none) => pollLoop cond fuel (k + 1)

/-- Modelled from the spec: `wait.PollImmediate(interval, deadline, cond)`
calls `cond` immediately and then once per interval until the deadline, so
at attempts `0, 1, ..., deadline / interval`. -/
def pollImmediate (interval deadline : Nat) (cond : Nat → Bool × Option String) :
    Option String :=
  pollLoop cond (deadline / interval + 1) 0

/-- Embedding of `waitForOperator` (dependency.go lines 108-114) on its
production path (nil `waitFunc`, so `isOperatorReady` is used): polls the
CSV reads at interval 1 second up to the 1 minute deadline, i.e. 60 time
units of 1 unit each. -/
def waitForOperator (reads : Nat → GetRes CSVStatus) : Option String :=
  pollImmediate 1 60 (fun k => isOperatorReady (reads k))

/-- Embedding of `operatorResource` (operator.go): one operator install
descriptor, immutable. -/
structure operatorResource where
  namespaceName : String
  subscription : String
  operatorGroup : String
  csv : String
deriving DecidableEq, Repr

/-- `addPrefixIfNecessary` (dependency.go). -/
def addPrefixIfNecessary (pfx name : String) : String :=
  if pfx ≠ "" then pfx ++ "-" ++ name else name

/-- `newArgoCDOperator` (operator.go). -/
def newArgoCDOperator (pfx : String) : operatorResource :=
  { namespaceName := addPrefixIfNecessary pfx "argocd"
    subscription := "argocd-operator"
    operatorGroup := "argocd-operator-group"
    csv := "argocd-operator.v0.0.14" }

/-- `newSealedSecretsOperator` (operator.go). -/
def newSealedSecretsOperator (pfx : String) : operatorResource :=
  { namespaceName := addPrefixIfNecessary pfx "cicd"
    subscription := "sealed-secrets-operator-helm"
    operatorGroup := "sealed-secrets-operator-group"
    csv := "sealed-secrets-operator-helm.v0.0.2" }

/-- The four sequential steps `Install` performs for one descriptor:
create-if-absent of its Namespace, OperatorGroup and Subscription, then
the readiness wait. -/
inductive StepKind where
  | ns
  | group
  | sub
  | wait
deriving DecidableEq, Repr

/-- The steps of one descriptor in the order `Install` performs them. -/
def stepsOf (d : operatorResource) : List (StepKind × operatorResource) :=
  [(StepKind.ns, d), (StepKind.group, d), (StepKind.sub, d), (StepKind.wait, d)]

/-- Embedding of one iteration of the `Install` loop (dependency.go lines
55-85) over descriptor `d`.  `env d s` is the error outcome of step `s`
(the return value of `createResourceIfAbsent` resp. `waitForOperator`).
Returns the list of steps attempted, in order, and the first error.  Each
step runs only if every earlier step of the same descriptor returned nil,
mirroring the early `return err` after each call. -/
def installOne (env : operatorResource → StepKind → Option String)
    (d : operatorResource) : List (StepKind × operatorResource) × Option String :=
  match env d StepKind.ns with
  | some e => ([(StepKind.ns, d)], some e)
  | none =>
    match env d StepKind.group with
    | some e => ([(StepKind.ns, d), (StepKind.group, d)], some e)
    | none =>
      match env d StepKind.sub with
      | some e => ([(StepKind.ns, d), (StepKind.group, d), (StepKind.sub, d)], some e)
      | none =>
        match env d StepKind.wait with
        | some e => (stepsOf d, some e)
        | none => (stepsOf d, none)

/-- Embedding of the `for _, operator := range operators` loop of
`Install` (dependency.go lines 49-87): descriptors are processed strictly
in list order, and the first error returns immediately, skipping every
later descriptor.  Returns the concatenated step trace and the final
result. -/
def installLoop (env : operatorResource → StepKind → Option String) :
    List operatorResource → List (StepKind × operatorResource) × Option String
  | [] => ([], none)
  | d :: rest =>
    let r := installOne env d
    match r.2 with
    | some e => (r.1, some e)
    | none =>
      let rr := installLoop env rest
      (r.1 ++ rr.1, rr.2)

/-- Embedding of `Dependency.Install`: runs the loop over the fixed
descriptor list `[newSealedSecretsOperator prefix, newArgoCDOperator
prefix]`. -/
def Install (env : operatorResource → StepKind → Option String)
    (pfx : String) : List (StepKind × operatorResource) × Option String :=
  installLoop env [newSealedSecretsOperator pfx, newArgoCDOperator pfx]

/-- The concatenation of the step traces of a list of descriptors that all
install successfully; used to state what `installLoop` has done before a
failing descriptor. -/
def preTrace (env : operatorResource → StepKind → Option String) :
    List operatorResource → List (StepKind × operatorResource)
  | [] => []
  | d :: rest => (installOne env d).1 ++ preTrace env rest

/-- `argocdNS` (argocd_controller.go). -/
def argocdNS : String := "argocd"

/-- `consoleLinkName`: the fixed well-known name of the singleton
ConsoleLink. -/
def consoleLinkName : String := "argocd"

/-- `argocdInstanceName`. -/
def argocdInstanceName : String := "argocd"

/-- `argocdRouteName`. -/
def argocdRouteName : String := "argocd-server"

/-- `imageDataURL` (argocd_controller.go): wraps base64 icon data in a
data URL. -/
def imageDataURL (data : String) : String :=
  "data:image/png;base64," ++ data

/-- The ConsoleLink content the reconciler writes: name, link text, href,
placement location, application-menu section and icon image URL. -/
structure ConsoleLink where
  name : String
  text : String
  href : String
  location : String
  placementSection : String
  imageURL : String
deriving DecidableEq, Repr

/-- Embedding of `newConsoleLink` (argocd_controller.go lines 205-222).
`img` is the process-global `image` data URL computed at init from the
embedded icon. -/
def newConsoleLink (href text img : String) : ConsoleLink :=
  { name := consoleLinkName
    text := text
    href := href
    location := "ApplicationMenu"
    placementSection := "Application Stages"
    imageURL := img }

/-- A write the reconciler performs against the cluster: creating the
ConsoleLink with the given content, or deleting the ConsoleLink by its
fixed name. -/
inductive WriteAction where
  | createLink (link : ConsoleLink)
  | deleteLink
deriving DecidableEq, Repr

/-- The oracle outcomes for the cluster-API calls one `Reconcile`
invocation can make: the `Get` of the ArgoCD instance, the result of
`SetControllerReference`, the `Get` of the argocd-server Route (carrying
its host on success), the `Get` of the ConsoleLink, and the results of
`Create` / `Delete` of the ConsoleLink should they be called. -/
structure World where
  argocd : GetRes Unit
  setRef : Option String
  route : GetRes String
  link : GetRes Unit
  createRes : Option String
  deleteRes : Option String
deriving DecidableEq, Repr

/-- Embedding of `ReconcileArgoCD.deleteConsoleLinkIfPresent`
(argocd_controller.go lines 224-234): read the ConsoleLink by name;
NotFound is success with no write, any other read error is returned;
otherwise delete it and return the delete outcome.  Returns the error and
the writes performed. -/
def deleteConsoleLinkIfPresent (w : World) : Option String × List WriteAction :=
  match w.link with
  | .notFound => (none, [])
  | .err m => (some m, [])
  | .ok _ => (w.deleteRes, [WriteAction.deleteLink])

/-- Embedding of `ReconcileArgoCD.Reconcile` (argocd_controller.go lines
145-203): fetch the ArgoCD instance (NotFound → delete the ConsoleLink if
present; other error → return it); set the controller reference on the
Route template; fetch the Route (NotFound → delete the ConsoleLink if
present; other error → return it); build the desired ConsoleLink from
`"https://" + host`; fetch the ConsoleLink (NotFound → create the desired
one; other error → return it; found → no-op success).  Returns the error
and the writes performed, in order. -/
def Reconcile (img : String) (w : World) : Option String × List WriteAction :=
  match w.argocd with
  | .notFound => deleteConsoleLinkIfPresent w
  | .err m => (some m, [])
  | .ok _ =>
    match w.setRef with
    | some m => (some m, [])
    | none =>
      match w.route with
      | .notFound => deleteConsoleLinkIfPresent w
      | .err m => (some m, [])
      | .ok host =>
        let consoleLink := newConsoleLink ("https://" ++ host) "ArgoCD" img
        match w.link with
        | .notFound =>
          match w.createRes with
          | some m => (some m, [WriteAction.createLink consoleLink])
          | none => (none, [WriteAction.createLink consoleLink])
        | .err m => (some m, [])
        | .ok _ => (none, [])

/-- Metadata of one object in a watch event: namespace, name and resource
version. -/
structure EventMeta where
  namespaceName : String
  name : String
  resourceVersion : String
deriving DecidableEq, Repr

/-- The `UpdateFunc` member of `filterPredicate` (argocd_controller.go
lines 106-119): the new object must match the asserted identity and its
resource version must differ from the old one. -/
def filterPredicateUpdate (assert : String → String → Bool)
    (mOld mNew : EventMeta) : Bool :=
  assert mNew.namespaceName mNew.name &&
    (mNew.resourceVersion != mOld.resourceVersion)

/-- The `CreateFunc` (and, identically, `DeleteFunc`) member of
`filterPredicate`: only the identity is asserted. -/
def filterPredicateCreate (assert : String → String → Bool)
    (m : EventMeta) : Bool :=
  assert m.namespaceName m.name

/-- `assertArgoCD` (argocd_controller.go). -/
def assertArgoCD (ns name : String) : Bool :=
  ns == argocdNS && argocdInstanceName == name

/-- `assertArgoCDRoute` (argocd_controller.go). -/
def assertArgoCDRoute (ns name : String) : Bool :=
  ns == argocdNS && argocdRouteName == name

/-! ### Helper lemmas -/

/-- Unfolding of one poll attempt. -/
theorem pollLoop_succ (cond : Nat → Bool × Option String) (fuel k : Nat) :
    pollLoop cond (fuel + 1) k =
      match cond k with
      | (_, some e) => some e
      | (true, none) => none
      | (false, none) => pollLoop cond fuel (k + 1) := rfl

/-- A condition that never becomes done within the fuel makes the poll
loop time out. -/
theorem pollLoop_timeout (cond : Nat → Bool × Option String) :
    ∀ fuel k, (∀ j, j < fuel → cond (k + j) = (false, none)) →
      pollLoop cond fuel k = some errWaitTimeout := by
  intro fuel
  induction fuel with
  | zero => intro k _; rfl
  | succ n ih =>
    intro k h
    rw [pollLoop_succ]
    have h0 : cond k = (false, none) := by simpa using h 0 (Nat.succ_pos n)
    rw [h0]
    refine ih (k + 1) (fun j hj => ?_)
    have hkj : k + 1 + j = k + (j + 1) := by omega
    rw [hkj]
    exact h (j + 1) (Nat.succ_lt_succ hj)

/-! ### Claims about the dependency installer -/

/-- C1 (code bug exhibit): when the resource is absent (the read returns
NotFound) and the subsequent create fails with AlreadyExists — the
creation race — `createResourceIfAbsent` returns the AlreadyExists error
rather than nil: the `IsAlreadyExists` branch inspects the read error,
which can never be AlreadyExists, so the create error is propagated
unmodified. -/
theorem createResourceIfAbsent_alreadyExists_race :
    createResourceIfAbsent (some K8sErr.notFound) (some K8sErr.alreadyExists) =
      (some K8sErr.alreadyExists, true) := rfl

/-- C8: create-if-absent on an already-present resource performs no write,
returns no error and leaves the presence state unchanged, and from any
starting state the end state after two calls equals the end state after
one call, the second call writing nothing and erring nothing. -/
theorem createResourceIfAbsent_idempotent :
    (runCreateIfAbsent true).wrote = false ∧
    (runCreateIfAbsent true).error = none ∧
    (runCreateIfAbsent true).present = true ∧
    (∀ p : Bool,
      (runCreateIfAbsent (runCreateIfAbsent p).present).present =
        (runCreateIfAbsent p).present ∧
      (runCreateIfAbsent (runCreateIfAbsent p).present).wrote = false ∧
      (runCreateIfAbsent (runCreateIfAbsent p).present).error = none) := by
  decide

/-- Witness for C8 at a concrete input: the second call after a run from
the absent state writes nothing, errs nothing and preserves presence. -/
theorem createResourceIfAbsent_idempotent_witness :
    (runCreateIfAbsent (runCreateIfAbsent false).present).present =
      (runCreateIfAbsent false).present ∧
    (runCreateIfAbsent (runCreateIfAbsent false).present).wrote = false ∧
    (runCreateIfAbsent (runCreateIfAbsent false).present).error = none :=
  createResourceIfAbsent_idempotent.2.2.2 false

/-- C2: classification of one poll attempt at index `k` (with `fuel + 1`
attempts left): a NotFound read continues polling at the next attempt; a
read with phase Succeeded stops the poll with success; a read with phase
Failed stops the poll with an error embedding the reported reason; any
other read error stops the poll with that error; any other phase continues
polling at the next attempt. -/
theorem isOperatorReady_poll_classification
    (reads : Nat → GetRes CSVStatus) (fuel k : Nat) :
    (reads k = GetRes.notFound →
      pollLoop (fun j => isOperatorReady (reads j)) (fuel + 1) k =
        pollLoop (fun j => isOperatorReady (reads j)) fuel (k + 1)) ∧
    (∀ r, reads k = GetRes.ok ⟨phaseSucceeded, r⟩ →
      pollLoop (fun j => isOperatorReady (reads j)) (fuel + 1) k = none) ∧
    (∀ r, reads k = GetRes.ok ⟨phaseFailed, r⟩ →
      pollLoop (fun j => isOperatorReady (reads j)) (fuel + 1) k =
        some ("Operator installation failed: " ++ r)) ∧
    (∀ m, reads k = GetRes.err m →
      pollLoop (fun j => isOperatorReady (reads j)) (fuel + 1) k = some m) ∧
    (∀ p r, p ≠ phaseFailed → p ≠ phaseSucceeded →
      reads k = GetRes.ok ⟨p, r⟩ →
      pollLoop (fun j => isOperatorReady (reads j)) (fuel + 1) k =
        pollLoop (fun j => isOperatorReady (reads j)) fuel (k + 1)) := by
  refine ⟨?_, ?_, ?_, ?_, ?_⟩
  · intro h
    rw [pollLoop_succ]
    have : isOperatorReady (reads k) = (false, none) := by rw [h]; decide
    rw [this]
  · intro r h
    rw [pollLoop_succ]
    have : isOperatorReady (reads k) = (true, none) := by
      rw [h]; simp [isOperatorReady, classifyPhase, phaseFailed, phaseSucceeded]
    rw [this]
  · intro r h
    rw [pollLoop_succ]
    have : isOperatorReady (reads k) =
        (false, some ("Operator installation failed: " ++ r)) := by
      rw [h]; simp [isOperatorReady, classifyPhase, phaseFailed]
    rw [this]
  · intro m h
    rw [pollLoop_succ]
    have : isOperatorReady (reads k) = (false, some m) := by
      rw [h]; simp [isOperatorReady]
    rw [this]
  · intro p r hf hs h
    rw [pollLoop_succ]
    have : isOperatorReady (reads k) = (false, none) := by
      rw [h]; simp [isOperatorReady, classifyPhase, hf, hs]
    rw [this]

/-- Witness for C2 at a concrete input: a read with phase Failed and
reason "boom" stops the poll with the embedding error. -/
theorem isOperatorReady_poll_classification_witness :
    pollLoop (fun j => isOperatorReady ((fun _ => GetRes.ok ⟨phaseFailed, "boom"⟩) j)) 1 0 =
      some ("Operator installation failed: " ++ "boom") :=
  (isOperatorReady_poll_classification (fun _ => GetRes.ok ⟨phaseFailed, "boom"⟩) 0 0).2.2.1
    "boom" rfl

/-- C7: the readiness wait is `pollImmediate` with interval 1 and deadline
60 time units, and when every attempt within the deadline is non-terminal
it returns the timeout error. -/
theorem waitForOperator_timeout (reads : Nat → GetRes CSVStatus)
    (h : ∀ k, k ≤ 60 → isOperatorReady (reads k) = (false, none)) :
    waitForOperator reads =
      pollImmediate 1 60 (fun k => isOperatorReady (reads k)) ∧
    waitForOperator reads = some errWaitTimeout := by
  refine ⟨rfl, ?_⟩
  show pollImmediate 1 60 (fun k => isOperatorReady (reads k)) = some errWaitTimeout
  have h61 : (60 : Nat) / 1 + 1 = 61 := by decide
  unfold pollImmediate
  rw [h61]
  refine pollLoop_timeout _ 61 0 (fun j hj => ?_)
  rw [Nat.zero_add]
  exact h j (by omega)

/-- Witness for C7: a CSV that never materializes (every read NotFound)
times the wait out. -/
theorem waitForOperator_timeout_witness :
    waitForOperator (fun _ => GetRes.notFound) = some errWaitTimeout :=
  (waitForOperator_timeout (fun _ => GetRes.notFound)
    (fun _ _ => by show isOperatorReady GetRes.notFound = (false, none); decide)).2

/-- The trace of one descriptor is always an initial segment of its four
steps in order: namespace, operator-group, subscription, readiness wait. -/
theorem installOne_trace_shape (env : operatorResource → StepKind → Option String)
    (d : operatorResource) :
    ∃ n, (installOne env d).1 = (stepsOf d).take n := by
  unfold installOne
  cases env d StepKind.ns with
  | some e => exact ⟨1, rfl⟩
  | none =>
    cases env d StepKind.group with
    | some e => exact ⟨2, rfl⟩
    | none =>
      cases env d StepKind.sub with
      | some e => exact ⟨3, rfl⟩
      | none =>
        cases env d StepKind.wait with
        | some e => exact ⟨4, rfl⟩
        | none => exact ⟨4, rfl⟩

/-- Every step in one descriptor's trace belongs to that descriptor. -/
theorem installOne_mem_snd (env : operatorResource → StepKind → Option String)
    (d : operatorResource) :
    ∀ a ∈ (installOne env d).1, a.2 = d := by
  intro a ha
  obtain ⟨n, hn⟩ := installOne_trace_shape env d
  rw [hn] at ha
  have ha' : a ∈ stepsOf d := List.take_subset n (stepsOf d) ha
  simp [stepsOf] at ha'
  rcases ha' with h | h | h | h <;> simp [h]

/-- Unfolding of one loop iteration of `installLoop`. -/
theorem installLoop_cons (env : operatorResource → StepKind → Option String)
    (d : operatorResource) (rest : List operatorResource) :
    installLoop env (d :: rest) =
      match (installOne env d).2 with
      | some e => ((installOne env d).1, some e)
      | none =>
        ((installOne env d).1 ++ (installLoop env rest).1,
          (installLoop env rest).2) := rfl

/-- Every step in the trace of a fully-successful list of descriptors
belongs to one of those descriptors. -/
theorem preTrace_mem_snd (env : operatorResource → StepKind → Option String) :
    ∀ pre : List operatorResource, ∀ a ∈ preTrace env pre, a.2 ∈ pre := by
  intro pre
  induction pre with
  | nil => intro a ha; simp [preTrace] at ha
  | cons b pre ih =>
    intro a ha
    rw [preTrace, List.mem_append] at ha
    rcases ha with ha | ha
    · rw [installOne_mem_snd env b a ha]
      exact List.mem_cons_self b pre
    · exact List.mem_cons_of_mem b (ih a ha)

/-- When every descriptor of `pre` installs cleanly and `d` fails, the
loop over `pre ++ d :: post` performs exactly the steps of `pre` followed
by the attempted steps of `d`, and returns the failure of `d`. -/
theorem installLoop_append_fail (env : operatorResource → StepKind → Option String)
    (d : operatorResource) (e : String)
    (hfail : (installOne env d).2 = some e) :
    ∀ pre post, (∀ d' ∈ pre, (installOne env d').2 = none) →
      installLoop env (pre ++ d :: post) =
        (preTrace env pre ++ (installOne env d).1, some e) := by
  intro pre
  induction pre with
  | nil =>
    intro post _
    rw [List.nil_append, installLoop_cons, hfail]
    simp [preTrace]
  | cons a pre ih =>
    intro post hpre
    have ha : (installOne env a).2 = none := hpre a (List.mem_cons_self a pre)
    rw [List.cons_append, installLoop_cons, ha,
      ih post (fun d' hd' => hpre d' (List.mem_cons_of_mem a hd'))]
    simp [preTrace, List.append_assoc]

/-- C6: with every descriptor of `pre` installing cleanly and descriptor
`d` failing, `installLoop` over `pre ++ d :: post` returns `d`'s failure
having performed exactly the steps of `pre` followed by `d`'s attempted
steps; within one descriptor the attempted steps are an initial segment of
namespace, operator-group, subscription, readiness wait in that order; and
no step of the whole run touches any descriptor other than those of `pre`
and `d` — in particular none of `post`. -/
theorem Install_strict_order (env : operatorResource → StepKind → Option String)
    (pre post : List operatorResource) (d : operatorResource) (e : String)
    (hpre : ∀ d' ∈ pre, (installOne env d').2 = none)
    (hfail : (installOne env d).2 = some e) :
    installLoop env (pre ++ d :: post) =
      (preTrace env pre ++ (installOne env d).1, some e) ∧
    (∃ n, (installOne env d).1 = (stepsOf d).take n) ∧
    (∀ s p, (s, p) ∈ (installLoop env (pre ++ d :: post)).1 →
      p ∈ pre ∨ p = d) := by
  have hmain := installLoop_append_fail env d e hfail pre post hpre
  refine ⟨hmain, installOne_trace_shape env d, ?_⟩
  intro s p hp
  rw [hmain] at hp
  rw [List.mem_append] at hp
  rcases hp with hp | hp
  · exact Or.inl (preTrace_mem_snd env pre (s, p) hp)
  · exact Or.inr (installOne_mem_snd env d (s, p) hp)

/-- A step environment in which every step succeeds except the readiness
wait of the argocd-operator descriptor. -/
def envBoom : operatorResource → StepKind → Option String :=
  fun d s =>
    match s with
    | StepKind.wait =>
      if d.subscription = "argocd-operator" then some "boom" else none
    | _ => none

/-- Witness for C6 at a concrete input: sealed-secrets installs cleanly,
the argocd descriptor's readiness wait fails, and the loop stops there. -/
theorem Install_strict_order_witness :
    installLoop envBoom
        ([newSealedSecretsOperator ""] ++ newArgoCDOperator "" :: []) =
      (preTrace envBoom [newSealedSecretsOperator ""] ++
        (installOne envBoom (newArgoCDOperator "")).1, some "boom") ∧
    (∃ n, (installOne envBoom (newArgoCDOperator "")).1 =
      (stepsOf (newArgoCDOperator "")).take n) ∧
    (∀ s p,
      (s, p) ∈ (installLoop envBoom
        ([newSealedSecretsOperator ""] ++ newArgoCDOperator "" :: [])).1 →
      p ∈ [newSealedSecretsOperator ""] ∨ p = newArgoCDOperator "") :=
  Install_strict_order envBoom [newSealedSecretsOperator ""] []
    (newArgoCDOperator "") "boom" (by decide) (by decide)

/-! ### Claims about the derived-link reconciler -/

/-- C3: with the ArgoCD instance present, the controller reference set,
the Route present with host `host`, the ConsoleLink absent and the create
succeeding, `Reconcile` performs exactly one write — creating the
ConsoleLink built from `"https://" ++ host` — and returns success; that
ConsoleLink carries the href `"https://" ++ host`, the display text
"ArgoCD", the fixed well-known name, location ApplicationMenu and section
"Application Stages". -/
theorem Reconcile_creates_link (img host : String) (w : World)
    (h1 : w.argocd = GetRes.ok ()) (h2 : w.setRef = none)
    (h3 : w.route = GetRes.ok host) (h4 : w.link = GetRes.notFound)
    (h5 : w.createRes = none) :
    Reconcile img w =
      (none,
        [WriteAction.createLink (newConsoleLink ("https://" ++ host) "ArgoCD" img)]) ∧
    (newConsoleLink ("https://" ++ host) "ArgoCD" img).href = "https://" ++ host ∧
    (newConsoleLink ("https://" ++ host) "ArgoCD" img).text = "ArgoCD" ∧
    (newConsoleLink ("https://" ++ host) "ArgoCD" img).name = consoleLinkName ∧
    (newConsoleLink ("https://" ++ host) "ArgoCD" img).location = "ApplicationMenu" ∧
    (newConsoleLink ("https://" ++ host) "ArgoCD" img).placementSection =
      "Application Stages" := by
  refine ⟨?_, rfl, rfl, rfl, rfl, rfl⟩
  unfold Reconcile
  rw [h1, h2, h3, h4, h5]

/-- Witness for C3 at a concrete input: the created ConsoleLink has href
`"https://foo.example.com"`. -/
theorem Reconcile_creates_link_witness :
    Reconcile "img"
        ⟨GetRes.ok (), none, GetRes.ok "foo.example.com", GetRes.notFound,
          none, none⟩ =
      (none,
        [WriteAction.createLink
          (newConsoleLink ("https://" ++ "foo.example.com") "ArgoCD" "img")]) :=
  (Reconcile_creates_link "img" "foo.example.com"
    ⟨GetRes.ok (), none, GetRes.ok "foo.example.com", GetRes.notFound,
      none, none⟩ rfl rfl rfl rfl rfl).1

/-- C4: when the ArgoCD instance is absent, or present with its Route
absent, `Reconcile` deletes the ConsoleLink when it is present (a single
delete write, assuming the delete succeeds) and returns success; when the
ConsoleLink is already absent it performs no write and returns success. -/
theorem Reconcile_deletes_link (img : String) (w : World) :
    (w.argocd = GetRes.notFound → w.link = GetRes.ok () → w.deleteRes = none →
      Reconcile img w = (none, [WriteAction.deleteLink])) ∧
    (w.argocd = GetRes.notFound → w.link = GetRes.notFound →
      Reconcile img w = (none, [])) ∧
    (w.argocd = GetRes.ok () → w.setRef = none → w.route = GetRes.notFound →
      w.link = GetRes.ok () → w.deleteRes = none →
      Reconcile img w = (none, [WriteAction.deleteLink])) ∧
    (w.argocd = GetRes.ok () → w.setRef = none → w.route = GetRes.notFound →
      w.link = GetRes.notFound → Reconcile img w = (none, [])) := by
  refine ⟨?_, ?_, ?_, ?_⟩
  · intro ha hl hd
    unfold Reconcile deleteConsoleLinkIfPresent
    rw [ha, hl, hd]
  · intro ha hl
    unfold Reconcile deleteConsoleLinkIfPresent
    rw [ha, hl]
  · intro ha hs hr hl hd
    unfold Reconcile deleteConsoleLinkIfPresent
    rw [ha, hs, hr, hl, hd]
  · intro ha hs hr hl
    unfold Reconcile deleteConsoleLinkIfPresent
    rw [ha, hs, hr, hl]

/-- Witness for C4 at a concrete input: ArgoCD instance absent,
ConsoleLink present — the reconciliation deletes it and succeeds. -/
theorem Reconcile_deletes_link_witness :
    Reconcile "img"
        ⟨GetRes.notFound, none, GetRes.notFound, GetRes.ok (), none, none⟩ =
      (none, [WriteAction.deleteLink]) :=
  (Reconcile_deletes_link "img"
    ⟨GetRes.notFound, none, GetRes.notFound, GetRes.ok (), none, none⟩).1
    rfl rfl rfl

/-- C5: when the ArgoCD instance, the Route and the ConsoleLink are all
present, `Reconcile` performs zero writes and returns success — in
particular the existing ConsoleLink is never updated, whatever host the
Route now carries. -/
theorem Reconcile_noop (img host : String) (w : World)
    (h1 : w.argocd = GetRes.ok ()) (h2 : w.setRef = none)
    (h3 : w.route = GetRes.ok host) (h4 : w.link = GetRes.ok ()) :
    Reconcile img w = (none, []) := by
  unfold Reconcile
  rw [h1, h2, h3, h4]

/-- Witness for C5 at a concrete input: all three resources present, no
write and success. -/
theorem Reconcile_noop_witness :
    Reconcile "img"
        ⟨GetRes.ok (), none, GetRes.ok "changed.example.com", GetRes.ok (),
          none, none⟩ = (none, []) :=
  Reconcile_noop "img" "changed.example.com"
    ⟨GetRes.ok (), none, GetRes.ok "changed.example.com", GetRes.ok (),
      none, none⟩ rfl rfl rfl rfl

/-- C10: whenever a read of the ArgoCD instance, the Route or the
ConsoleLink fails with an error other than NotFound — on any of the code
paths that reach that read — `Reconcile` returns that error having
performed no write at all. -/
theorem Reconcile_read_error_no_write (img m : String) (w : World) :
    (w.argocd = GetRes.err m → Reconcile img w = (some m, [])) ∧
    (w.argocd = GetRes.notFound → w.link = GetRes.err m →
      Reconcile img w = (some m, [])) ∧
    (w.argocd = GetRes.ok () → w.setRef = none → w.route = GetRes.err m →
      Reconcile img w = (some m, [])) ∧
    (w.argocd = GetRes.ok () → w.setRef = none → w.route = GetRes.notFound →
      w.link = GetRes.err m → Reconcile img w = (some m, [])) ∧
    (∀ host, w.argocd = GetRes.ok () → w.setRef = none →
      w.route = GetRes.ok host → w.link = GetRes.err m →
      Reconcile img w = (some m, [])) := by
  refine ⟨?_, ?_, ?_, ?_, ?_⟩
  · intro ha
    unfold Reconcile
    rw [ha]
  · intro ha hl
    unfold Reconcile deleteConsoleLinkIfPresent
    rw [ha, hl]
  · intro ha hs hr
    unfold Reconcile
    rw [ha, hs, hr]
  · intro ha hs hr hl
    unfold Reconcile deleteConsoleLinkIfPresent
    rw [ha, hs, hr, hl]
  · intro host ha hs hr hl
    unfold Reconcile
    rw [ha, hs, hr, hl]

/-- Witness for C10 at a concrete input: the ArgoCD instance read fails
with "io timeout"; the reconciliation returns it with no write. -/
theorem Reconcile_read_error_no_write_witness :
    Reconcile "img"
        ⟨GetRes.err "io timeout", none, GetRes.notFound, GetRes.notFound,
          none, none⟩ = (some "io timeout", []) :=
  (Reconcile_read_error_no_write "img" "io timeout"
    ⟨GetRes.err "io timeout", none, GetRes.notFound, GetRes.notFound,
      none, none⟩).1 rfl

/-- C9: an update event whose new object has the same resource version as
the old one never passes `filterPredicate`'s update filter, whatever
identity assertion is in force; an update event whose new object matches
the asserted identity and whose resource version changed passes it. -/
theorem filterPredicate_update_version (assert : String → String → Bool)
    (mOld mNew : EventMeta) :
    (mNew.resourceVersion = mOld.resourceVersion →
      filterPredicateUpdate assert mOld mNew = false) ∧
    (assert mNew.namespaceName mNew.name = true →
      mNew.resourceVersion ≠ mOld.resourceVersion →
      filterPredicateUpdate assert mOld mNew = true) := by
  constructor
  · intro h
    simp [filterPredicateUpdate, h]
  · intro ha hv
    simp [filterPredicateUpdate, ha, hv]

/-- Witness for C9 at a concrete input: an update of the watched ArgoCD
instance with a changed resource version passes the filter. -/
theorem filterPredicate_update_version_witness :
    filterPredicateUpdate assertArgoCD ⟨"argocd", "argocd", "1"⟩
      ⟨"argocd", "argocd", "2"⟩ = true :=
  (filterPredicate_update_version assertArgoCD ⟨"argocd", "argocd", "1"⟩
    ⟨"argocd", "argocd", "2"⟩).2 rfl (by decide)

end GitopsOperator
